import Mathlib

/-!
Verification of the Open-Sentencing-Model repository
(`src/notebooks/predict.py` and `src/server/routes/predict.py`).

The repository's behavioral core is a pandas data-cleaning pipeline
(`clean_data`), a counterfactual generator (`make_counterfactual`), a
discrepancy estimator (`estimate_discrepancy`, with opposite sign
conventions in the two endpoint variants), and a percentile scorer
(`discrepancy_percentile`).

Embedding conventions:
- A pandas `DataFrame` is a `List` of row structures; filtering, column
  `map` assignment and `loc`-masked assignment become `List.filter` and
  `List.map` over rows.
- Python floats are modelled as `ℚ` (all arithmetic in the pipeline is
  plain field arithmetic: division, subtraction, `min`, a median).
- A value that pandas would hold as `NaN`/missing is `Option.none`.
- `COMMITMENT_TERM` arrives either as a number or a string (the schema
  allows `Or(And(str, len), int, float)`), modelled by `TermCell`;
  `astype(float)` is a fallible conversion (`Option`), its `none` case
  modelling the uncaught Python `ValueError`.
- File input in `discrepancy_percentile` (`with open(path) as f`) is
  modelled by passing the file store as an explicit function
  `fs : String → List ℚ` and returning, along with the result, the list
  of paths that the call opened (the read log).
-/

section SpecToProof

/- Batteries marks the `Rat` field operations `@[irreducible]`; the kernel
ignores reducibility, and concrete evaluation of the pipeline needs them
unfolded, so they are made semireducible locally to this file. -/
attribute [local semireducible] Rat.mul Rat.inv Rat.add Rat.sub Rat.ofScientific

/-- Inbound `COMMITMENT_TERM` cell: the schema accepts a non-empty string
or an `int`/`float` (`Or(And(str, len), int, float)`). -/
inductive TermCell : Type where
  | num (q : ℚ)
  | str (s : String)
deriving DecidableEq, Repr

/-- One case record (one row of the DataFrame built from the request
payload), with the `COMMITMENT_TERM` cell type `τ` and the `RACE` cell
type `ρ` varying along the pipeline: the raw row has `τ = TermCell`,
`ρ = String`; after the race-map step `ρ = Option String` (unmapped
races become missing); after `astype(float)` the term is a `ℚ`.

Column drops (`SENTENCE_TYPE`, `COMMITMENT_UNIT`, the three null-heavy
columns) are not erased from the structure: a dropped column is simply
never read again, and the model-feature projection is taken on the named
feature fields only. -/
structure RowG (τ ρ : Type) : Type where
  sentence_type : String
  race : ρ
  gender : String
  commitment_term : τ
  commitment_unit : String
  age_at_incident : ℚ
  charge_count : ℤ
  primary_charge_flag : Bool
  updated_offense_category : String
  disposition_charged_offense_title : String
  disposition_charged_class : String
  charge_disposition : String
  sentence_judge : String
  sentence_phase : String
  law_enforcement_agency : String
  length_of_case_in_days : ℚ
  incident_city : Option String
  law_enforcement_unit : Option String
deriving DecidableEq, Repr

/-- A raw, schema-validated row. -/
abbrev RawRow : Type := RowG TermCell String

/-- A row after the race-normalization map (race may be missing). -/
abbrev MappedRow : Type := RowG TermCell (Option String)

/-- A row after `astype(float)` on `COMMITMENT_TERM`. -/
abbrev FloatRow : Type := RowG ℚ (Option String)

/-- Result of `clean_data`: a cleaned DataFrame, a rejection-reason
string (the function's documented `str` return), or an uncaught Python
exception (which the source does not catch anywhere). -/
inductive CleanResult : Type where
  | ok (rows : List FloatRow)
  | reject (msg : String)
  | exception (msg : String)
deriving DecidableEq, Repr

/-- `standard_race_map` dict from `clean_data` (both variants are
textually identical); a dict lookup of a key not present is a missing
value under pandas `Series.map`. -/
def standard_race_map (r : String) : Option String :=
  if r = "Black" then some "Black"
  else if r = "White" then some "White"
  else if r = "HISPANIC" then some "HISPANIC"
  else if r = "White [Hispanic or Latino]" then some "HISPANIC"
  else if r = "White/Black [Hispanic or Latino]" then some "HISPANIC"
  else if r = "ASIAN" then some "Asian"
  else if r = "Asian" then some "Asian"
  else if r = "American Indian" then some "American Indian"
  else if r = "Unknown" then some "Unknown"
  else if r = "Biracial" then some "Black"
  else none

/-- `race_counterfactual_map` dict from `make_counterfactual` (identical
in both variants). -/
def race_counterfactual_map (r : String) : Option String :=
  if r = "Black" then some "White"
  else if r = "White" then some "Black"
  else if r = "HISPANIC" then some "White"
  else if r = "Asian" then some "White"
  else if r = "American Indian" then some "White"
  else none

/-- Digits of a Python decimal literal chunk; `none` when empty or a
non-digit occurs. -/
def parseDigits (cs : List Char) : Option ℕ :=
  if cs.isEmpty then none
  else cs.foldlM (fun acc c => if c.isDigit then some (acc * 10 + (c.toNat - 48)) else none) 0

/-- Split a character list at every occurrence of `sep` (the character
analogue of `str.split`). -/
def splitOnChar (sep : Char) : List Char → List (List Char)
  | [] => [[]]
  | c :: cs =>
    if c = sep then [] :: splitOnChar sep cs
    else
      match splitOnChar sep cs with
      | [] => [[c]]
      | h :: t => (c :: h) :: t

/-- Strip leading and trailing whitespace from a character list. -/
def trimChars (cs : List Char) : List Char :=
  (((cs.dropWhile (fun c => c.isWhitespace)).reverse).dropWhile
    (fun c => c.isWhitespace)).reverse

/-- Mantissa of a Python float literal: `digits`, `digits.digits`,
`digits.` or `.digits`. -/
def parseMantissa (cs : List Char) : Option ℚ :=
  match splitOnChar (Char.ofNat 46) cs with
  | [i] => (parseDigits i).map (fun n => (n : ℚ))
  | [i, f] =>
    if i.isEmpty && f.isEmpty then none
    else
      let ip : Option ℕ := if i.isEmpty then some 0 else parseDigits i
      let fp : Option ℕ := if f.isEmpty then some 0 else parseDigits f
      match ip, fp with
      | some a, some b => some ((a : ℚ) + (b : ℚ) / ((10 : ℚ) ^ f.length))
      | _, _ => none
  | _ => none

/-- Signed integer (exponent part of a float literal). -/
def parseSignedInt (cs : List Char) : Option ℤ :=
  match cs with
  | '-' :: rest => (parseDigits rest).map (fun n => -(n : ℤ))
  | '+' :: rest => (parseDigits rest).map (fun n => (n : ℤ))
  | _ => (parseDigits cs).map (fun n => (n : ℤ))

/-- Models Python `float(s)` (hence pandas `astype(float)` on a string
cell) for ordinary decimal literals: optional surrounding whitespace,
optional sign, decimal mantissa, optional `e`/`E` exponent (Python
accepts either case). A string `float()` cannot parse gives `none`,
modelling the raised `ValueError`. -/
def pythonFloat (s : String) : Option ℚ :=
  let t := trimChars s.toList
  let (sgn, body) :=
    match t with
    | '-' :: rest => ((-1 : ℚ), rest)
    | '+' :: rest => ((1 : ℚ), rest)
    | _ => ((1 : ℚ), t)
  match splitOnChar 'e' (body.map (fun c => if c = 'E' then 'e' else c)) with
  | [m] => (parseMantissa m).map (fun v => sgn * v)
  | [m, e] => do
    let mv ← parseMantissa m
    let ev ← parseSignedInt e
    pure (sgn * mv * (10 : ℚ) ^ ev)
  | _ => none

/-- `astype(float)` on one `COMMITMENT_TERM` cell. -/
def termToFloat : TermCell → Option ℚ
  | .num q => some q
  | .str s => pythonFloat s

/-- Insert into an ascending-sorted list of rationals. -/
def insertSortedQ (x : ℚ) : List ℚ → List ℚ
  | [] => [x]
  | y :: ys => if x ≤ y then x :: y :: ys else y :: insertSortedQ x ys

/-- Ascending insertion sort (the sort behind the median). -/
def sortQ (l : List ℚ) : List ℚ :=
  l.foldr insertSortedQ []

/-- pandas `Series.median` on exact rationals: middle element of the
sorted values (mean of the two middle elements for even length). The
value for an empty list is never used by the pipeline (the source
guards the only use with an empty mask). -/
def median (l : List ℚ) : ℚ :=
  let s := sortQ l
  let n := s.length
  if n % 2 = 1 then s.getD (n / 2) 0
  else (s.getD (n / 2 - 1) 0 + s.getD (n / 2) 0) / 2

/-- `commitment_term_units` list from `clean_data`. -/
def commitment_term_units : List String := ["Year(s)", "Months", "Natural Life", "Days"]

/-- `term_divisors` dict with the `fillna(1)` applied to units outside
the dict (the source fills `Natural Life` rows with divisor 1). -/
def term_divisor (u : String) : ℚ :=
  if u = "Year(s)" then 1
  else if u = "Months" then 12
  else if u = "Days" then 365
  else 1

/-- Race-map step: `data['RACE'] = data['RACE'].map(standard_race_map)`. -/
def raceMapRow (r : RawRow) : MappedRow :=
  { r with race := standard_race_map r.race }

/-- Gender step: `data.loc[~data['GENDER'].isin(['Male','Female']), 'GENDER'] = 'Unknown'`. -/
def genderRow (r : MappedRow) : MappedRow :=
  if r.gender = "Male" ∨ r.gender = "Female" then r else { r with gender := "Unknown" }

/-- `astype(float)` on one row; `none` models the `ValueError` raised on
an unparseable string cell. -/
def convRow (r : MappedRow) : Option FloatRow :=
  (termToFloat r.commitment_term).map (fun q => { r with commitment_term := q })

/-- `data['COMMITMENT_TERM'].astype(float)` over the whole frame: the
conversion raises (collectively) if any cell fails. -/
def astype_step : List MappedRow → Option (List FloatRow)
  | [] => some []
  | r :: rs =>
    match convRow r, astype_step rs with
    | some r', some rs' => some (r' :: rs')
    | _, _ => none

/-- Unit normalization: `COMMITMENT_TERM / divisor_col` where
`divisor_col = COMMITMENT_UNIT.map(term_divisors).fillna(1)`. -/
def divideRow (r : FloatRow) : FloatRow :=
  { r with commitment_term := r.commitment_term / term_divisor r.commitment_unit }

/-- Natural-Life overwrite: compute
`natural_life_years = 78 - median(AGE_AT_INCIDENT of the Natural Life rows)`
and assign it to `COMMITMENT_TERM` of every `Natural Life` row. When no
such row exists the pandas mask is empty and the assignment is a no-op
(the undefined empty median is never stored). -/
def natural_life_step (l : List FloatRow) : List FloatRow :=
  let ages := (l.filter (fun r => r.commitment_unit = "Natural Life")).map (fun r => r.age_at_incident)
  if ages.isEmpty then l
  else
    l.map (fun r =>
      if r.commitment_unit = "Natural Life" then { r with commitment_term := 78 - median ages }
      else r)

/-- `dropna(axis=0)` after the three null-heavy columns were dropped:
among the surviving columns only `RACE` can still be missing (every
other surviving field is non-null by the schema's types), so the step
keeps exactly the rows with a present race value. -/
def dropnaRow (r : FloatRow) : Bool :=
  r.race.isSome

/-- First-appearance-ordered distinct values of a column. -/
def uniqueValues (col : List String) : List String :=
  col.foldl (fun acc v => if v ∈ acc then acc else acc ++ [v]) []

/-- Number of distinct values in a column. -/
def numDistinct (col : List String) : ℕ :=
  (uniqueValues col).length

/-- Stable descending insertion by count (later-inserted ties go after
earlier ones). -/
def insertByCount (p : String × ℕ) : List (String × ℕ) → List (String × ℕ)
  | [] => [p]
  | q :: qs => if p.2 ≤ q.2 then q :: insertByCount p qs else p :: q :: qs

/-- Sort value/count pairs by count, descending, stably. -/
def sortByCountDesc (l : List (String × ℕ)) : List (String × ℕ) :=
  l.foldl (fun acc p => insertByCount p acc) []

/-- pandas `value_counts()`: distinct values with their frequencies,
sorted by frequency descending. pandas does not fix the relative order
of equal-frequency values; this embedding breaks ties by first
appearance. Every concrete input used below is tie-free at the
positions that matter, so no statement depends on the tie-break. -/
def value_counts (col : List String) : List (String × ℕ) :=
  sortByCountDesc ((uniqueValues col).map (fun v => (v, col.count v)))

/-- One pass of `value_counts()[n:]` consolidation on one categorical
column: values outside the `n` most frequent become `'misc_other'`. -/
def reduceField (get : FloatRow → String) (set : FloatRow → String → FloatRow)
    (n : ℕ) (l : List FloatRow) : List FloatRow :=
  let combine := ((value_counts (l.map get)).drop n).map Prod.fst
  l.map (fun r => if get r ∈ combine then set r "misc_other" else r)

/-- Cardinality-reduction step: the `top_ns` dict iterated in insertion
order (`UPDATED_OFFENSE_CATEGORY: 25`, `DISPOSITION_CHARGED_OFFENSE_TITLE: 40`,
`LAW_ENFORCEMENT_AGENCY: 20`, `SENTENCE_JUDGE: 73`); each field's
frequencies are computed on the current frame. -/
def reduce_cardinality (l : List FloatRow) : List FloatRow :=
  reduceField (fun r => r.sentence_judge)
    (fun r v => { r with sentence_judge := v }) 73
    (reduceField (fun r => r.law_enforcement_agency)
      (fun r v => { r with law_enforcement_agency := v }) 20
      (reduceField (fun r => r.disposition_charged_offense_title)
        (fun r v => { r with disposition_charged_offense_title := v }) 40
        (reduceField (fun r => r.updated_offense_category)
          (fun r v => { r with updated_offense_category := v }) 25 l)))

/-- `clip(upper=110)` on `COMMITMENT_TERM`. -/
def clip_step (l : List FloatRow) : List FloatRow :=
  l.map (fun r => { r with commitment_term := min r.commitment_term 110 })

namespace Notebooks

/-- `clean_data` from `src/notebooks/predict.py` with the default
`removeColumns=True` (the `src/server/routes/predict.py` copy is
step-for-step identical, with `OFFENSE_CATEGORY` for
`UPDATED_OFFENSE_CATEGORY` and no `removeColumns` flag). -/
def clean_data (data : List RawRow) : CleanResult :=
  let d1 := data.filter (fun r => r.sentence_type = "Prison")
  if d1.length = 0 then .reject "INVALID: No Prison sentences found"
  else
    let d2 := ((d1.map raceMapRow).filter (fun r => r.race ≠ some "Unknown")).filter
      (fun r => r.race.isSome)
    if d2.length = 0 then .reject "INVALID: No valid race values found"
    else
      let d3 := d2.map genderRow
      if d3.length = 0 then .reject "INVALID: No valid gender values found"
      else
        match astype_step d3 with
        | none => .exception "ValueError: could not convert string to float"
        | some d4 =>
          let d5 := d4.filter (fun r => r.commitment_unit ∈ commitment_term_units)
          let d6 := natural_life_step (d5.map divideRow)
          if d6.length = 0 then .reject "INVALID: No valid commitment term units found"
          else
            let d7 := d6.filter dropnaRow
            if d7.length = 0 then .reject "INVALID: No null-free examples found"
            else .ok (clip_step (reduce_cardinality d7))

/-- Per-row action of `make_counterfactual`: the frame is copied and the
single `RACE` column is re-assigned through `race_counterfactual_map`
(pandas `Series.map`: a missing input stays missing, an unmapped value
becomes missing). -/
def counterfactual_row (r : FloatRow) : FloatRow :=
  { r with race := r.race.bind race_counterfactual_map }

/-- `make_counterfactual` from `src/notebooks/predict.py`. -/
def make_counterfactual (data : List FloatRow) : List FloatRow :=
  data.map counterfactual_row

/-- `estimate_discrepancy` from `src/notebooks/predict.py` (extended
variant): `pred - model.predict(make_counterfactual(data))`, predictions
rowwise through the opaque model. The `return_pred` flag only decides
whether `pred` is additionally returned; the discrepancy value is the
same either way. -/
def estimate_discrepancy (model : FloatRow → ℚ) (data : List FloatRow) : List ℚ :=
  List.zipWith (fun a b => a - b) (data.map model) ((make_counterfactual data).map model)

/-- `MODEL_PATH` of the notebooks variant (the `abspath` normalization
of the surrounding script is dropped; only identity of paths matters). -/
def MODEL_PATH : String := "../server/models/sentence_pipe_mae1.555_2020-10-10_02h46m24s.pkl"

/-- `TEST_DISCREPANCIES_PATH` constant. -/
def TEST_DISCREPANCIES_PATH : String := "../models/test_data_percentage_discrepancies.json"

/-- Files opened at module import time: the module top level opens only
the model pickle (`with open(MODEL_PATH, 'rb')`); the discrepancies file
is not touched at startup. -/
def startup_reads : List String := [ MODEL_PATH ]

/-- Body of `discrepancy_percentile` after the file load: absolute
values of both sides, then for each new value the fraction of reference
values its magnitude strictly exceeds, times 100
(`mask = new > test; (mask.sum(axis=1) / n) * 100` — the numpy mask
`new > test` holds elementwise exactly when the reference value is
strictly below the new one). -/
def percentile_core (new_discrepancy : List ℚ) (test_discrepancies : List ℚ) : List ℚ :=
  let test := test_discrepancies.map (fun t => |t|)
  let n := test.length
  (new_discrepancy.map (fun d => |d|)).map
    (fun d => ((test.countP (fun t => decide (t < d)) : ℚ) / (n : ℚ)) * 100)

/-- `discrepancy_percentile` from `src/notebooks/predict.py`: opens
`discrepancies_path`, loads the JSON list, and scores the new
discrepancies against it. The second component is the call's read log:
the one `with open(discrepancies_path)` it performs. -/
def discrepancy_percentile (fs : String → List ℚ) (discrepancies_path : String)
    (new_discrepancy : List ℚ) : List ℚ × List String :=
  (percentile_core new_discrepancy (fs discrepancies_path), [discrepancies_path])

end Notebooks

namespace Server

/-- `make_counterfactual` from `src/server/routes/predict.py` (textually
identical to the notebooks copy). -/
def make_counterfactual (data : List FloatRow) : List FloatRow :=
  data.map (fun r => { r with race := r.race.bind race_counterfactual_map })

/-- `estimate_discrepancy` from `src/server/routes/predict.py` (legacy
variant): `model.predict(make_counterfactual(data)) - model.predict(data)`. -/
def estimate_discrepancy (model : FloatRow → ℚ) (data : List FloatRow) : List ℚ :=
  List.zipWith (fun a b => a - b) ((make_counterfactual data).map model) (data.map model)

end Server

/-- `PREDICT_SCHEMA` of the notebooks variant as a predicate on a typed
raw row. The typed fields (`CHARGE_COUNT : int`,
`PRIMARY_CHARGE_FLAG : bool`, `LENGTH_OF_CASE_in_Days`,
`AGE_AT_INCIDENT : Or(float, int)`) are valid by construction; the
`And(str, len)` constraints require non-emptiness; `COMMITMENT_TERM`
accepts any non-empty string or a number; the two nullable columns
accept `None` or a non-empty string. -/
def predict_schema_valid (r : RawRow) : Bool :=
  (!r.charge_disposition.isEmpty) &&
  (!r.updated_offense_category.isEmpty) &&
  (!r.disposition_charged_offense_title.isEmpty) &&
  (!r.disposition_charged_class.isEmpty) &&
  (!r.sentence_judge.isEmpty) &&
  (!r.sentence_phase.isEmpty) &&
  (match r.commitment_term with
   | .num _ => true
   | .str s => !s.isEmpty) &&
  (!r.commitment_unit.isEmpty) &&
  (!r.race.isEmpty) &&
  (!r.gender.isEmpty) &&
  (match r.incident_city with
   | none => true
   | some s => !s.isEmpty) &&
  (!r.law_enforcement_agency.isEmpty) &&
  (match r.law_enforcement_unit with
   | none => true
   | some s => !s.isEmpty) &&
  (!r.sentence_type.isEmpty)

/-- A representative cleaned feature row used by concrete instances. -/
def exampleFloatRow : FloatRow :=
  { sentence_type := "Prison", race := some "Black", gender := "Male",
    commitment_term := 10, commitment_unit := "Year(s)", age_at_incident := 30,
    charge_count := 1, primary_charge_flag := true,
    updated_offense_category := "PROMIS Conversion",
    disposition_charged_offense_title := "ARMED ROBBERY",
    disposition_charged_class := "X", charge_disposition := "Plea Of Guilty",
    sentence_judge := "James L Rhodes", sentence_phase := "Original Sentencing",
    law_enforcement_agency := "CHICAGO PD", length_of_case_in_days := 1307,
    incident_city := none, law_enforcement_unit := none }

/-- A representative schema-valid raw record used by concrete instances. -/
def exampleRawRow : RawRow :=
  { sentence_type := "Prison", race := "Black", gender := "Male",
    commitment_term := .num 120, commitment_unit := "Months", age_at_incident := 30,
    charge_count := 1, primary_charge_flag := true,
    updated_offense_category := "PROMIS Conversion",
    disposition_charged_offense_title := "ARMED ROBBERY",
    disposition_charged_class := "X", charge_disposition := "Plea Of Guilty",
    sentence_judge := "James L Rhodes", sentence_phase := "Original Sentencing",
    law_enforcement_agency := "CHICAGO PD", length_of_case_in_days := 1307,
    incident_city := none, law_enforcement_unit := none }

/-- C1: for every non-empty reference distribution and every array of new
discrepancy values, the percentile scorer returns, for each new value,
100 × (number of reference values whose absolute value is strictly less
than the absolute value of that new value) / (total number of reference
values); ties in the reference set do not count toward the numerator. -/
theorem claim_C1 (fs : String → List ℚ) (p : String) (new : List ℚ)
    (h : fs p ≠ []) :
    (Notebooks.discrepancy_percentile fs p new).1 =
      new.map (fun d =>
        100 * (((fs p).countP (fun t => decide (|t| < |d|)) : ℚ)) / ((fs p).length : ℚ)) := by
  unfold Notebooks.discrepancy_percentile Notebooks.percentile_core
  rw [List.map_map]
  refine List.map_congr_left (fun d _ => ?_)
  simp only [Function.comp_apply, List.countP_map, List.length_map, Function.comp_def]
  ring

/-- C1 witness: the spec's worked example, reference `[0.1, 0.2, 0.3, 0.4]`
with new magnitude `0.25`, scores `50`. -/
theorem claim_C1_witness :
    ((fun _ : String => [(0.1 : ℚ), 0.2, 0.3, 0.4]) "p" ≠ []) ∧
    (Notebooks.discrepancy_percentile
      (fun _ : String => [(0.1 : ℚ), 0.2, 0.3, 0.4]) "p" [0.25]).1 = [50] :=
  ⟨by decide, by
    rw [claim_C1 _ _ _ (by decide)]
    decide⟩

/-- Pointwise action of `zipWith` over two mapped copies of one list. -/
theorem zipWith_map_of_same {α β γ δ : Type} (f : β → γ → δ) (g : α → β) (k : α → γ)
    (l : List α) :
    List.zipWith f (l.map g) (l.map k) = l.map (fun a => f (g a) (k a)) := by
  induction l with
  | nil => rfl
  | cons a as ih => simp [ih]

/-- C2: the extended (notebooks) variant of `estimate_discrepancy` returns
`predict(row) − predict(counterfactual(row))` for every row, the legacy
(server) variant returns `predict(counterfactual(row)) − predict(row)`,
and consequently the two variants are exact pointwise negations. -/
theorem claim_C2 (model : FloatRow → ℚ) (data : List FloatRow) :
    Notebooks.estimate_discrepancy model data
        = data.map (fun r => model r - model (Notebooks.counterfactual_row r)) ∧
    Server.estimate_discrepancy model data
        = data.map (fun r => model (Notebooks.counterfactual_row r) - model r) ∧
    Server.estimate_discrepancy model data
        = (Notebooks.estimate_discrepancy model data).map (fun d => -d) := by
  have h1 : Notebooks.estimate_discrepancy model data
      = data.map (fun r => model r - model (Notebooks.counterfactual_row r)) := by
    unfold Notebooks.estimate_discrepancy Notebooks.make_counterfactual
    rw [List.map_map]
    exact zipWith_map_of_same _ _ _ _
  have h2 : Server.estimate_discrepancy model data
      = data.map (fun r => model (Notebooks.counterfactual_row r) - model r) := by
    unfold Server.estimate_discrepancy Server.make_counterfactual
    rw [List.map_map]
    exact zipWith_map_of_same _ _ _ _
  refine ⟨h1, h2, ?_⟩
  rw [h1, h2, List.map_map]
  refine List.map_congr_left (fun r _ => ?_)
  simp [neg_sub]

/-- C9 counterexample: the reference-distribution file is not opened at
process start (module import opens only the model pickle), and every
call of `discrepancy_percentile` opens it again, so two requests read it
twice — it is not "loaded exactly once at process start". -/
theorem claim_C9_counterexample :
    Notebooks.TEST_DISCREPANCIES_PATH ∉ Notebooks.startup_reads ∧
    (Notebooks.discrepancy_percentile (fun _ => [1]) Notebooks.TEST_DISCREPANCIES_PATH [1]).2
      = [ Notebooks.TEST_DISCREPANCIES_PATH ] ∧
    ((Notebooks.discrepancy_percentile (fun _ => [1]) Notebooks.TEST_DISCREPANCIES_PATH [1]).2 ++
      (Notebooks.discrepancy_percentile (fun _ => [1]) Notebooks.TEST_DISCREPANCIES_PATH [2]).2).length
      = 2 := by
  refine ⟨by decide, rfl, rfl⟩

/-- C9 amended: the reference distribution is re-read from its file on
every percentile call (exactly one open per call, none at startup), the
call never writes any file, and its output depends only on the file
contents at the given path. -/
theorem claim_C9_amended (fs fs' : String → List ℚ) (p : String) (new : List ℚ)
    (h : fs p = fs' p) :
    (Notebooks.discrepancy_percentile fs p new).2 = [p] ∧
    Notebooks.discrepancy_percentile fs p new = Notebooks.discrepancy_percentile fs' p new := by
  refine ⟨rfl, ?_⟩
  unfold Notebooks.discrepancy_percentile
  rw [h]

/-- C9 amended witness: two stores agreeing on the path give the same
call result, and the call's read log is exactly that path. -/
theorem claim_C9_amended_witness :
    ((fun _ : String => [(1 : ℚ)]) "p" = (fun s : String => if s = "p" then [(1 : ℚ)] else []) "p") ∧
    (Notebooks.discrepancy_percentile (fun _ : String => [(1 : ℚ)]) "p" [3]).2 = ["p"] :=
  ⟨by decide, (claim_C9_amended (fun _ : String => [(1 : ℚ)])
    (fun s : String => if s = "p" then [(1 : ℚ)] else []) "p" [3] (by decide)).1⟩

/-- C3: `make_counterfactual` returns a copy of the frame in which each
row's `RACE` is replaced through the fixed counterfactual map
(Black→White, White→Black, HISPANIC→White, Asian→White,
American Indian→White, anything else → missing), every other field is
unchanged, and — the embedding being purely functional, with the source
building its result on a `data.copy()` — the input is not mutated. -/
theorem claim_C3 (data : List FloatRow) (i : ℕ) (h : i < data.length) :
    (Notebooks.make_counterfactual data).length = data.length ∧
    (((Notebooks.make_counterfactual data).get
        ⟨i, by simpa [Notebooks.make_counterfactual] using h⟩).race
      = (data.get ⟨i, h⟩).race.bind race_counterfactual_map) ∧
    (let r := data.get ⟨i, h⟩
     let r' := (Notebooks.make_counterfactual data).get
        ⟨i, by simpa [Notebooks.make_counterfactual] using h⟩
     r'.sentence_type = r.sentence_type ∧ r'.gender = r.gender ∧
     r'.commitment_term = r.commitment_term ∧ r'.commitment_unit = r.commitment_unit ∧
     r'.age_at_incident = r.age_at_incident ∧ r'.charge_count = r.charge_count ∧
     r'.primary_charge_flag = r.primary_charge_flag ∧
     r'.updated_offense_category = r.updated_offense_category ∧
     r'.disposition_charged_offense_title = r.disposition_charged_offense_title ∧
     r'.disposition_charged_class = r.disposition_charged_class ∧
     r'.charge_disposition = r.charge_disposition ∧
     r'.sentence_judge = r.sentence_judge ∧ r'.sentence_phase = r.sentence_phase ∧
     r'.law_enforcement_agency = r.law_enforcement_agency ∧
     r'.length_of_case_in_days = r.length_of_case_in_days ∧
     r'.incident_city = r.incident_city ∧
     r'.law_enforcement_unit = r.law_enforcement_unit) ∧
    race_counterfactual_map "Black" = some "White" ∧
    race_counterfactual_map "White" = some "Black" ∧
    race_counterfactual_map "HISPANIC" = some "White" ∧
    race_counterfactual_map "Asian" = some "White" ∧
    race_counterfactual_map "American Indian" = some "White" ∧
    (∀ s : String,
      s ∉ (["Black", "White", "HISPANIC", "Asian", "American Indian"] : List String) →
      race_counterfactual_map s = none) := by
  refine ⟨by simp [Notebooks.make_counterfactual], ?_, ?_, rfl, rfl, rfl, rfl, rfl, ?_⟩
  · simp [Notebooks.make_counterfactual, Notebooks.counterfactual_row,
      List.get_eq_getElem]
  · simp [Notebooks.make_counterfactual, Notebooks.counterfactual_row,
      List.get_eq_getElem]
  · intro s hs
    simp only [List.mem_cons, List.not_mem_nil, or_false, not_or] at hs
    obtain ⟨h1, h2, h3, h4, h5⟩ := hs
    simp [race_counterfactual_map, h1, h2, h3, h4, h5]

/-- C3 witness: on a concrete one-row frame with `RACE = Black`, the
counterfactual row's race is `White`. -/
theorem claim_C3_witness :
    (0 < ([exampleFloatRow] : List FloatRow).length) ∧
    ((Notebooks.make_counterfactual [exampleFloatRow]).get
        ⟨0, by simp [Notebooks.make_counterfactual]⟩).race = some "White" := by
  refine ⟨by decide, ?_⟩
  have h := (claim_C3 [exampleFloatRow] 0 (by decide)).2.1
  rw [h]
  decide

/-- C5: in the commitment-term step, every row whose unit is
`Natural Life` has its `COMMITMENT_TERM` overwritten with the single
shared value `78 − median(AGE_AT_INCIDENT over the Natural Life rows)`,
and when no such row exists the overwrite is a no-op. -/
theorem claim_C5 (l : List FloatRow) :
    ((∀ r ∈ l, r.commitment_unit ≠ "Natural Life") → natural_life_step l = l) ∧
    (∀ r ∈ natural_life_step l, r.commitment_unit = "Natural Life" →
      r.commitment_term =
        78 - median ((l.filter (fun r => r.commitment_unit = "Natural Life")).map
          (fun r => r.age_at_incident))) := by
  constructor
  · intro h
    have hf : l.filter (fun r => decide (r.commitment_unit = "Natural Life")) = [] :=
      List.filter_eq_nil_iff.mpr (by simpa using h)
    simp [natural_life_step, hf]
  · intro r hr hu
    unfold natural_life_step at hr
    by_cases hes : ((l.filter (fun r => r.commitment_unit = "Natural Life")).map
        (fun r => r.age_at_incident)).isEmpty
    · rw [if_pos hes] at hr
      exfalso
      have hrf : r ∈ l.filter (fun r => decide (r.commitment_unit = "Natural Life")) :=
        List.mem_filter.mpr ⟨hr, by simp [hu]⟩
      have : l.filter (fun r => decide (r.commitment_unit = "Natural Life")) = [] := by
        simpa [List.isEmpty_iff] using hes
      rw [this] at hrf
      exact List.not_mem_nil r hrf
    · rw [if_neg hes] at hr
      obtain ⟨r₀, _, hmap⟩ := List.mem_map.mp hr
      by_cases h₀ : r₀.commitment_unit = "Natural Life"
      · rw [if_pos h₀] at hmap
        rw [← hmap]
      · rw [if_neg h₀] at hmap
        exact absurd (hmap ▸ hu) h₀

/-- A three-row all-Natural-Life batch with ages 20, 22, 24 (the spec's
worked example). -/
def c5batch : List FloatRow :=
  [ { exampleFloatRow with commitment_unit := "Natural Life", age_at_incident := 20 },
    { exampleFloatRow with commitment_unit := "Natural Life", age_at_incident := 22 },
    { exampleFloatRow with commitment_unit := "Natural Life", age_at_incident := 24 } ]

/-- C5 witness: on the spec's example batch (ages 20, 22, 24, median 22)
the first output row's term is `78 − 22 = 56`, and on a batch with no
Natural Life rows the step is a no-op. -/
def c5outRow : FloatRow :=
  { exampleFloatRow with
      commitment_unit := "Natural Life",
      age_at_incident := 20,
      commitment_term := 56 }

/-- C5 witness continued: `c5outRow` is the expected first output row. -/
theorem claim_C5_witness :
    natural_life_step [exampleFloatRow] = [exampleFloatRow] ∧
    c5outRow ∈ natural_life_step c5batch ∧
    c5outRow.commitment_term =
      78 - median ((c5batch.filter (fun r => r.commitment_unit = "Natural Life")).map
        (fun r => r.age_at_incident)) := by
  refine ⟨(claim_C5 [exampleFloatRow]).1 (by decide), ?_, ?_⟩
  · decide
  · exact (claim_C5 c5batch).2 c5outRow (by decide) rfl

/-- Structure of a successful `clean_data` run: the race/gender steps
fed `astype`, which succeeded, and the result is the clip of the
cardinality reduction of the null-filtered commitment-term output. -/
theorem clean_data_ok_shape (data : List RawRow) (rows : List FloatRow)
    (h : Notebooks.clean_data data = .ok rows) :
    ∃ d4 : List FloatRow,
      astype_step (((((data.filter (fun r => r.sentence_type = "Prison")).map
          raceMapRow).filter (fun r => r.race ≠ some "Unknown")).filter
          (fun r => r.race.isSome)).map genderRow) = some d4 ∧
      rows = clip_step (reduce_cardinality
        ((natural_life_step ((d4.filter
          (fun r => r.commitment_unit ∈ commitment_term_units)).map divideRow)).filter
          dropnaRow)) := by
  unfold Notebooks.clean_data at h
  dsimp only at h
  split at h
  · exact absurd h (by simp)
  · split at h
    · exact absurd h (by simp)
    · split at h
      · exact absurd h (by simp)
      · split at h
        · exact absurd h (by simp)
        · rename_i d4 heq
          split at h
          · exact absurd h (by simp)
          · split at h
            · exact absurd h (by simp)
            · refine ⟨d4, heq, ?_⟩
              injection h with h
              exact h.symm

/-- Membership in the clip step. -/
theorem mem_clip_step {r : FloatRow} {l : List FloatRow} (h : r ∈ clip_step l) :
    ∃ r₁ ∈ l, r = { r₁ with commitment_term := min r₁.commitment_term 110 } := by
  obtain ⟨r₁, hr₁, hmap⟩ := List.mem_map.mp h
  exact ⟨r₁, hr₁, hmap.symm⟩

/-- One consolidation pass never touches `COMMITMENT_TERM`,
`COMMITMENT_UNIT`, `RACE` or `AGE_AT_INCIDENT` when its setter does not. -/
theorem reduceField_mem_of_mem {get : FloatRow → String} {set : FloatRow → String → FloatRow}
    {n : ℕ} {l : List FloatRow} {r : FloatRow}
    (hset : ∀ x v, (set x v).commitment_term = x.commitment_term ∧
      (set x v).commitment_unit = x.commitment_unit ∧
      (set x v).race = x.race ∧ (set x v).age_at_incident = x.age_at_incident)
    (h : r ∈ reduceField get set n l) :
    ∃ r₁ ∈ l, r.commitment_term = r₁.commitment_term ∧
      r.commitment_unit = r₁.commitment_unit ∧
      r.race = r₁.race ∧ r.age_at_incident = r₁.age_at_incident := by
  obtain ⟨r₁, hr₁, hmap⟩ := List.mem_map.mp h
  refine ⟨r₁, hr₁, ?_⟩
  by_cases hc : get r₁ ∈ ((value_counts (l.map get)).drop n).map Prod.fst
  · rw [if_pos hc] at hmap
    rw [← hmap]
    exact hset r₁ "misc_other"
  · rw [if_neg hc] at hmap
    rw [← hmap]
    exact ⟨rfl, rfl, rfl, rfl⟩

/-- The cardinality-reduction step never touches `COMMITMENT_TERM`,
`COMMITMENT_UNIT`, `RACE` or `AGE_AT_INCIDENT`. -/
theorem reduce_cardinality_mem_of_mem {r : FloatRow} {l : List FloatRow}
    (h : r ∈ reduce_cardinality l) :
    ∃ r₁ ∈ l, r.commitment_term = r₁.commitment_term ∧
      r.commitment_unit = r₁.commitment_unit ∧
      r.race = r₁.race ∧ r.age_at_incident = r₁.age_at_incident := by
  unfold reduce_cardinality at h
  obtain ⟨r₁, h₁, e₁⟩ := reduceField_mem_of_mem (by intro x v; exact ⟨rfl, rfl, rfl, rfl⟩) h
  obtain ⟨r₂, h₂, e₂⟩ := reduceField_mem_of_mem (by intro x v; exact ⟨rfl, rfl, rfl, rfl⟩) h₁
  obtain ⟨r₃, h₃, e₃⟩ := reduceField_mem_of_mem (by intro x v; exact ⟨rfl, rfl, rfl, rfl⟩) h₂
  obtain ⟨r₄, h₄, e₄⟩ := reduceField_mem_of_mem (by intro x v; exact ⟨rfl, rfl, rfl, rfl⟩) h₃
  refine ⟨r₄, h₄, ?_, ?_, ?_, ?_⟩
  · rw [e₁.1, e₂.1, e₃.1, e₄.1]
  · rw [e₁.2.1, e₂.2.1, e₃.2.1, e₄.2.1]
  · rw [e₁.2.2.1, e₂.2.2.1, e₃.2.2.1, e₄.2.2.1]
  · rw [e₁.2.2.2, e₂.2.2.2, e₃.2.2.2, e₄.2.2.2]

/-- A row of the Natural-Life step's output whose unit is not
`Natural Life` comes through unchanged. -/
theorem natural_life_step_mem_not_nl {r : FloatRow} {l : List FloatRow}
    (h : r ∈ natural_life_step l) (hu : r.commitment_unit ≠ "Natural Life") :
    r ∈ l := by
  unfold natural_life_step at h
  dsimp only at h
  split at h
  · exact h
  · obtain ⟨r₁, hr₁, hmap⟩ := List.mem_map.mp h
    by_cases h₁ : r₁.commitment_unit = "Natural Life"
    · rw [if_pos h₁] at hmap
      rw [← hmap] at hu
      exact absurd h₁ hu
    · rw [if_neg h₁] at hmap
      rw [← hmap]
      exact hr₁

/-- A successful `astype(float)` conversion of one row: the term parsed
and every other field is carried over. -/
theorem convRow_eq_some {r₀ : MappedRow} {r : FloatRow} (h : convRow r₀ = some r) :
    ∃ q : ℚ, termToFloat r₀.commitment_term = some q ∧
      r = { sentence_type := r₀.sentence_type, race := r₀.race, gender := r₀.gender,
            commitment_term := q, commitment_unit := r₀.commitment_unit,
            age_at_incident := r₀.age_at_incident, charge_count := r₀.charge_count,
            primary_charge_flag := r₀.primary_charge_flag,
            updated_offense_category := r₀.updated_offense_category,
            disposition_charged_offense_title := r₀.disposition_charged_offense_title,
            disposition_charged_class := r₀.disposition_charged_class,
            charge_disposition := r₀.charge_disposition,
            sentence_judge := r₀.sentence_judge, sentence_phase := r₀.sentence_phase,
            law_enforcement_agency := r₀.law_enforcement_agency,
            length_of_case_in_days := r₀.length_of_case_in_days,
            incident_city := r₀.incident_city,
            law_enforcement_unit := r₀.law_enforcement_unit } := by
  unfold convRow at h
  cases hq : termToFloat r₀.commitment_term with
  | none => rw [hq] at h; exact absurd h (by simp)
  | some q =>
    rw [hq] at h
    exact ⟨q, rfl, (Option.some_inj.mp h).symm⟩

/-- Rows of a successful whole-frame `astype(float)` all come from a
successful row conversion. -/
theorem astype_step_mem {l : List MappedRow} {l₄ : List FloatRow}
    (h : astype_step l = some l₄) {r : FloatRow} (hr : r ∈ l₄) :
    ∃ r₀ ∈ l, convRow r₀ = some r := by
  induction l generalizing l₄ with
  | nil =>
    unfold astype_step at h
    simp only [Option.some_inj] at h
    rw [← h] at hr
    exact absurd hr (List.not_mem_nil r)
  | cons a as ih =>
    unfold astype_step at h
    cases hca : convRow a with
    | none => rw [hca] at h; exact absurd h (by simp)
    | some b =>
      rw [hca] at h
      cases has : astype_step as with
      | none => rw [has] at h; exact absurd h (by simp)
      | some bs =>
        rw [has] at h
        simp only [Option.some_inj] at h
        rw [← h] at hr
        rcases List.mem_cons.mp hr with hrb | hrbs
        · exact ⟨a, List.mem_cons_self a as, hrb ▸ hca⟩
        · obtain ⟨r₀, hr₀, hconv⟩ := ih has hrbs
          exact ⟨r₀, List.mem_cons_of_mem a hr₀, hconv⟩

/-- The gender step does not touch the term cell or the unit. -/
theorem genderRow_term_unit (r : MappedRow) :
    (genderRow r).commitment_term = r.commitment_term ∧
    (genderRow r).commitment_unit = r.commitment_unit := by
  unfold genderRow
  split
  · exact ⟨rfl, rfl⟩
  · exact ⟨rfl, rfl⟩

/-- C4: every cleaned row's `COMMITMENT_TERM` is at most 110, and a
cleaned row whose unit is `Year(s)`, `Months` or `Days` carries exactly
the raw numeric term divided by 1, 12 or 365 and clamped above at 110
(no minimum clamp is applied). -/
theorem claim_C4 (data : List RawRow) (rows : List FloatRow)
    (h : Notebooks.clean_data data = .ok rows) :
    (∀ r ∈ rows, r.commitment_term ≤ 110) ∧
    (∀ r ∈ rows, r.commitment_unit ∈ (["Year(s)", "Months", "Days"] : List String) →
      ∃ r₀ ∈ data, r.commitment_unit = r₀.commitment_unit ∧
        ∃ q : ℚ, termToFloat r₀.commitment_term = some q ∧
          r.commitment_term = min (q / term_divisor r₀.commitment_unit) 110) := by
  obtain ⟨d4, hd4, hrows⟩ := clean_data_ok_shape data rows h
  constructor
  · intro r hr
    rw [hrows] at hr
    obtain ⟨r₁, _, hre⟩ := mem_clip_step hr
    rw [hre]
    exact min_le_right _ _
  · intro r hr hu
    rw [hrows] at hr
    obtain ⟨r₁, hr₁, hre⟩ := mem_clip_step hr
    have hterm : r.commitment_term = min r₁.commitment_term 110 := by rw [hre]
    have hunit : r.commitment_unit = r₁.commitment_unit := by rw [hre]
    obtain ⟨r₂, hr₂, ht₂, hu₂, _, _⟩ := reduce_cardinality_mem_of_mem hr₁
    have hr₂' : r₂ ∈ natural_life_step ((d4.filter
        (fun r => r.commitment_unit ∈ commitment_term_units)).map divideRow) :=
      (List.mem_filter.mp hr₂).1
    have hnl : r₂.commitment_unit ≠ "Natural Life" := by
      rw [← hu₂, ← hunit]
      simp only [List.mem_cons, List.not_mem_nil, or_false] at hu
      rcases hu with h | h | h <;> rw [h] <;> decide
    have hr₂d6 := natural_life_step_mem_not_nl hr₂' hnl
    obtain ⟨r₃, hr₃, hdiv⟩ := List.mem_map.mp hr₂d6
    have ht₃ : r₂.commitment_term = r₃.commitment_term / term_divisor r₃.commitment_unit := by
      rw [← hdiv]; rfl
    have hu₃ : r₂.commitment_unit = r₃.commitment_unit := by rw [← hdiv]; rfl
    have hr₃d4 : r₃ ∈ d4 := (List.mem_filter.mp hr₃).1
    obtain ⟨r₅, hr₅, hconv⟩ := astype_step_mem hd4 hr₃d4
    obtain ⟨q, hq, hr₃e⟩ := convRow_eq_some hconv
    have ht₃q : r₃.commitment_term = q := by rw [hr₃e]
    have hu₅ : r₃.commitment_unit = r₅.commitment_unit := by rw [hr₃e]
    obtain ⟨r₆, hr₆, hgen⟩ := List.mem_map.mp hr₅
    have hc₆ : r₅.commitment_term = r₆.commitment_term ∧
        r₅.commitment_unit = r₆.commitment_unit := by
      rw [← hgen]
      exact genderRow_term_unit r₆
    have hr₆' : r₆ ∈ ((data.filter (fun r => r.sentence_type = "Prison")).map raceMapRow) :=
      (List.mem_filter.mp ((List.mem_filter.mp hr₆).1)).1
    obtain ⟨r₇, hr₇, hrm⟩ := List.mem_map.mp hr₆'
    have hc₇ : r₆.commitment_term = r₇.commitment_term ∧
        r₆.commitment_unit = r₇.commitment_unit := by
      rw [← hrm]
      exact ⟨rfl, rfl⟩
    refine ⟨r₇, (List.mem_filter.mp hr₇).1, ?_, q, ?_, ?_⟩
    · rw [hunit, hu₂, hu₃, hu₅, hc₆.2, hc₇.2]
    · rw [← hc₇.1, ← hc₆.1]
      unfold convRow at hconv
      cases hqq : termToFloat r₅.commitment_term with
      | none => rw [hqq] at hconv; exact absurd hconv (by simp)
      | some q₂ =>
        rw [hqq] at hconv
        have hq₂ : ({ r₅ with commitment_term := q₂ } : FloatRow) = r₃ :=
          Option.some_inj.mp hconv
        have : q₂ = q := by
          have hcc := congrArg (fun x => x.commitment_term) hq₂
          simpa [ht₃q] using hcc
        rw [this]
    · rw [hterm, ht₂, ht₃, ht₃q]
      have hud : r₃.commitment_unit = r₇.commitment_unit := by
        rw [hu₅, hc₆.2, hc₇.2]
      rw [hud]

/-- C4 witness: a single raw record of 120 Months cleans to a single row
with term `min (120 / 12) 110 = 10 ≤ 110`. -/
theorem claim_C4_witness :
    ∃ rows, Notebooks.clean_data [exampleRawRow] = .ok rows ∧
      ∀ r ∈ rows, r.commitment_term ≤ 110 := by
  have hclean : Notebooks.clean_data [exampleRawRow] =
      .ok [{ exampleRawRow with
              race := some "Black",
              commitment_term := min ((120 : ℚ) / 12) 110 }] := by
    decide
  exact ⟨_, hclean, (claim_C4 [exampleRawRow] _ hclean).1⟩

/-- C6 amended: for every batch with no Prison record, `clean_data`
stops at the first step with the rejection string
`"INVALID: No Prison sentences found"` (the source prefixes every
rejection reason with `INVALID: `). -/
theorem claim_C6 (data : List RawRow) (h : ∀ r ∈ data, r.sentence_type ≠ "Prison") :
    Notebooks.clean_data data = .reject "INVALID: No Prison sentences found" := by
  have hf : data.filter (fun r => decide (r.sentence_type = "Prison")) = [] :=
    List.filter_eq_nil_iff.mpr (by simpa using h)
  unfold Notebooks.clean_data
  rw [hf]
  rfl

/-- A raw record with a probation sentence. -/
def c6row : RawRow := { exampleRawRow with sentence_type := "Probation" }

/-- C6 counterexample: on a batch with no Prison record the cleaner
returns `"INVALID: No Prison sentences found"`, not the claim's
`"No Prison sentences found"`. -/
theorem claim_C6_counterexample :
    Notebooks.clean_data [c6row] = .reject "INVALID: No Prison sentences found" ∧
    Notebooks.clean_data [c6row] ≠ .reject "No Prison sentences found" := by
  constructor
  · decide
  · decide

/-- C6 witness: the amended statement at the concrete probation batch. -/
theorem claim_C6_witness :
    Notebooks.clean_data [c6row] = .reject "INVALID: No Prison sentences found" :=
  claim_C6 [c6row] (by decide)

/-- C7 amended: a single Prison record whose race is `"Unknown"` or not
a key of the race table is rejected with
`"INVALID: No valid race values found"`. -/
theorem claim_C7 (row : RawRow) (h1 : row.sentence_type = "Prison")
    (h2 : row.race = "Unknown" ∨ standard_race_map row.race = none) :
    Notebooks.clean_data [row] = .reject "INVALID: No valid race values found" := by
  unfold Notebooks.clean_data
  rcases h2 with h2 | h2
  · have hm : standard_race_map row.race = some "Unknown" := by rw [h2]; rfl
    simp [h1, raceMapRow, hm]
  · simp [h1, raceMapRow, h2]

/-- A Prison record whose race is not a key of the table. -/
def c7row : RawRow := { exampleRawRow with race := "Martian" }

/-- A Prison record with race `"Unknown"`. -/
def c7rowU : RawRow := { exampleRawRow with race := "Unknown" }

/-- C7 counterexample: a Prison record with an unmapped race is rejected
with `"INVALID: No valid race values found"`, not the claim's
`"No valid race values found"`. -/
theorem claim_C7_counterexample :
    c7row.sentence_type = "Prison" ∧ standard_race_map c7row.race = none ∧
    Notebooks.clean_data [c7row] = .reject "INVALID: No valid race values found" ∧
    Notebooks.clean_data [c7row] ≠ .reject "No valid race values found" := by
  refine ⟨rfl, rfl, by decide, by decide⟩

/-- C7 witness: the amended statement at the concrete `"Unknown"` record. -/
theorem claim_C7_witness :
    Notebooks.clean_data [c7rowU] = .reject "INVALID: No valid race values found" :=
  claim_C7 c7rowU rfl (Or.inl rfl)

/-- A schema-valid Prison record whose `COMMITMENT_TERM` is the
non-numeric string `"ten"`. -/
def c8row : RawRow := { exampleRawRow with commitment_term := .str "ten" }

/-- C8: the failure contract has a third, undocumented outcome. The
record `c8row` passes every schema check (`COMMITMENT_TERM` may be any
non-empty string) and is rejected by no cleaning step; instead
`astype(float)` raises an uncaught `ValueError`, so the request fails
with neither a `SchemaValidationError` nor a rejection-reason string. -/
theorem claim_C8 :
    predict_schema_valid c8row = true ∧
    Notebooks.clean_data [c8row] =
      .exception "ValueError: could not convert string to float" ∧
    (∀ rows, Notebooks.clean_data [c8row] ≠ .ok rows) ∧
    (∀ msg, Notebooks.clean_data [c8row] ≠ .reject msg) := by
  refine ⟨by decide, by decide, ?_, ?_⟩
  · intro rows hc
    rw [show Notebooks.clean_data [c8row] =
      .exception "ValueError: could not convert string to float" from by decide] at hc
    exact absurd hc (by simp)
  · intro msg hc
    rw [show Notebooks.clean_data [c8row] =
      .exception "ValueError: could not convert string to float" from by decide] at hc
    exact absurd hc (by simp)

/-- Inserting into the count-sorted list adds one element. -/
theorem insertByCount_length (p : String × ℕ) (l : List (String × ℕ)) :
    (insertByCount p l).length = l.length + 1 := by
  induction l with
  | nil => rfl
  | cons q qs ih =>
    unfold insertByCount
    split
    · simp [ih]
    · simp

/-- Auxiliary: folding insertions preserves total length. -/
theorem foldl_insertByCount_length (l : List (String × ℕ)) :
    ∀ acc : List (String × ℕ),
      (l.foldl (fun acc p => insertByCount p acc) acc).length = l.length + acc.length := by
  induction l with
  | nil => intro acc; simp
  | cons a as ih =>
    intro acc
    simp only [List.foldl_cons, ih, insertByCount_length, List.length_cons]
    omega

/-- The count sort is a permutation in length. -/
theorem sortByCountDesc_length (l : List (String × ℕ)) :
    (sortByCountDesc l).length = l.length := by
  unfold sortByCountDesc
  rw [foldl_insertByCount_length]
  rfl

/-- `value_counts` has one entry per distinct value. -/
theorem value_counts_length (col : List String) :
    (value_counts col).length = numDistinct col := by
  unfold value_counts numDistinct
  rw [sortByCountDesc_length, List.length_map]

/-- A consolidation pass over a column with at most `n` distinct values
changes nothing. -/
theorem reduceField_eq_self {get : FloatRow → String} {set : FloatRow → String → FloatRow}
    {n : ℕ} {l : List FloatRow} (h : numDistinct (l.map get) ≤ n) :
    reduceField get set n l = l := by
  have hdrop : (value_counts (l.map get)).drop n = [] :=
    List.drop_eq_nil_of_le (by rw [value_counts_length]; exact h)
  simp only [reduceField, hdrop, List.map_nil]
  have hid : ∀ r, (if get r ∈ ([] : List String) then set r "misc_other" else r) = r :=
    fun r => if_neg (List.not_mem_nil _)
  exact (List.map_congr_left (fun a _ => hid a)).trans (List.map_id l)

/-- A batch whose four consolidated columns already have at most their
top-N distinct values passes through cardinality reduction unchanged. -/
theorem reduce_cardinality_eq_self (l : List FloatRow)
    (h1 : numDistinct (l.map (fun r => r.updated_offense_category)) ≤ 25)
    (h2 : numDistinct (l.map (fun r => r.disposition_charged_offense_title)) ≤ 40)
    (h3 : numDistinct (l.map (fun r => r.law_enforcement_agency)) ≤ 20)
    (h4 : numDistinct (l.map (fun r => r.sentence_judge)) ≤ 73) :
    reduce_cardinality l = l := by
  unfold reduce_cardinality
  rw [reduceField_eq_self h1, reduceField_eq_self h2, reduceField_eq_self h3,
    reduceField_eq_self h4]

/-- C10 amended: applying cardinality reduction a second time yields the
same batch provided each of the four listed fields of the once-reduced
batch has at most its top-N distinct values (in particular for any
single-record inference batch); without that bound re-application can
consolidate further values, so the step is not idempotent in general. -/
theorem claim_C10_amended (l : List FloatRow)
    (h1 : numDistinct ((reduce_cardinality l).map (fun r => r.updated_offense_category)) ≤ 25)
    (h2 : numDistinct ((reduce_cardinality l).map
      (fun r => r.disposition_charged_offense_title)) ≤ 40)
    (h3 : numDistinct ((reduce_cardinality l).map (fun r => r.law_enforcement_agency)) ≤ 20)
    (h4 : numDistinct ((reduce_cardinality l).map (fun r => r.sentence_judge)) ≤ 73) :
    reduce_cardinality (reduce_cardinality l) = reduce_cardinality l :=
  reduce_cardinality_eq_self (reduce_cardinality l) h1 h2 h3 h4

/-- A two-row batch for the amended-claim witness. -/
def c10small : List FloatRow :=
  [exampleFloatRow, { exampleFloatRow with sentence_judge := "Mary T Brown" }]

/-- C10 amended witness: the two-row batch satisfies every distinct-count
bound and its reduction is stable under re-application. -/
theorem claim_C10_amended_witness :
    numDistinct ((reduce_cardinality c10small).map
        (fun r => r.updated_offense_category)) ≤ 25 ∧
    numDistinct ((reduce_cardinality c10small).map
        (fun r => r.disposition_charged_offense_title)) ≤ 40 ∧
    numDistinct ((reduce_cardinality c10small).map
        (fun r => r.law_enforcement_agency)) ≤ 20 ∧
    numDistinct ((reduce_cardinality c10small).map (fun r => r.sentence_judge)) ≤ 73 ∧
    reduce_cardinality (reduce_cardinality c10small) = reduce_cardinality c10small :=
  ⟨by decide, by decide, by decide, by decide,
    claim_C10_amended c10small (by decide) (by decide) (by decide) (by decide)⟩

/-- Distinct agency names for the idempotence counterexample. -/
def agencyNames : List String :=
  ["a", "b", "c", "d", "f", "g", "h", "i", "j", "k",
   "l", "m", "n", "o", "p", "q", "r", "s", "t", "u", "v", "w"]

/-- Row multiplicities: nineteen agencies appear 5 times, one 3 times,
two 2 times (102 rows, no frequency ties anywhere near a top-20 cut). -/
def c10count (i : ℕ) : ℕ := if i < 19 then 5 else if i = 19 then 3 else 2

/-- The counterexample batch: 22 distinct `LAW_ENFORCEMENT_AGENCY`
values; all other consolidated columns are constant. -/
def c10batch : List FloatRow :=
  (List.range 22).flatMap (fun i =>
    List.replicate (c10count i) { exampleFloatRow with
                                    law_enforcement_agency := agencyNames.getD i "z" })

/-- Expected batch after one reduction: the two least frequent agencies
(2 rows each) are consolidated, so `misc_other` now covers 4 rows. -/
def c10after1 : List FloatRow :=
  (List.range 22).flatMap (fun i =>
    List.replicate (c10count i) { exampleFloatRow with
                                    law_enforcement_agency :=
                                      if 20 ≤ i then "misc_other" else agencyNames.getD i "z" })

/-- Expected batch after a second reduction: `misc_other` (4 rows) now
outranks the 3-row agency, which gets consolidated in its turn. -/
def c10after2 : List FloatRow :=
  (List.range 22).flatMap (fun i =>
    List.replicate (c10count i) { exampleFloatRow with
                                    law_enforcement_agency :=
                                      if 19 ≤ i then "misc_other" else agencyNames.getD i "z" })

set_option maxRecDepth 20000 in
/-- Frequency table of the agency column of the counterexample batch. -/
theorem c10_vc1 :
    value_counts (c10batch.map (fun r => r.law_enforcement_agency)) =
      [("a", 5), ("b", 5), ("c", 5), ("d", 5), ("f", 5), ("g", 5), ("h", 5),
       ("i", 5), ("j", 5), ("k", 5), ("l", 5), ("m", 5), ("n", 5), ("o", 5),
       ("p", 5), ("q", 5), ("r", 5), ("s", 5), ("t", 5), ("u", 3), ("v", 2),
       ("w", 2)] := by
  decide

set_option maxRecDepth 20000 in
/-- First reduction of the counterexample batch. -/
theorem c10_pass1 : reduce_cardinality c10batch = c10after1 := by
  unfold reduce_cardinality
  rw [reduceField_eq_self (show numDistinct (c10batch.map
    (fun r => r.updated_offense_category)) ≤ 25 by decide)]
  rw [reduceField_eq_self (show numDistinct (c10batch.map
    (fun r => r.disposition_charged_offense_title)) ≤ 40 by decide)]
  have hag : reduceField (fun r => r.law_enforcement_agency)
      (fun r v => { r with law_enforcement_agency := v }) 20 c10batch = c10after1 := by
    simp only [reduceField, c10_vc1]
    decide
  rw [hag]
  exact reduceField_eq_self (show numDistinct (c10after1.map
    (fun r => r.sentence_judge)) ≤ 73 by decide)

set_option maxRecDepth 20000 in
/-- Frequency table of the agency column after one reduction. -/
theorem c10_vc2 :
    value_counts (c10after1.map (fun r => r.law_enforcement_agency)) =
      [("a", 5), ("b", 5), ("c", 5), ("d", 5), ("f", 5), ("g", 5), ("h", 5),
       ("i", 5), ("j", 5), ("k", 5), ("l", 5), ("m", 5), ("n", 5), ("o", 5),
       ("p", 5), ("q", 5), ("r", 5), ("s", 5), ("t", 5), ("misc_other", 4),
       ("u", 3)] := by
  decide

set_option maxRecDepth 20000 in
/-- Second reduction of the counterexample batch. -/
theorem c10_pass2 : reduce_cardinality c10after1 = c10after2 := by
  unfold reduce_cardinality
  rw [reduceField_eq_self (show numDistinct (c10after1.map
    (fun r => r.updated_offense_category)) ≤ 25 by decide)]
  rw [reduceField_eq_self (show numDistinct (c10after1.map
    (fun r => r.disposition_charged_offense_title)) ≤ 40 by decide)]
  have hag : reduceField (fun r => r.law_enforcement_agency)
      (fun r v => { r with law_enforcement_agency := v }) 20 c10after1 = c10after2 := by
    simp only [reduceField, c10_vc2]
    decide
  rw [hag]
  exact reduceField_eq_self (show numDistinct (c10after2.map
    (fun r => r.sentence_judge)) ≤ 73 by decide)

set_option maxRecDepth 20000 in
/-- C10 counterexample: a 102-row batch (22 distinct agencies, tie-free
frequencies) on which the consolidated `misc_other` class becomes
frequent enough to displace a previously kept agency, so applying
cardinality reduction twice does not equal applying it once. -/
theorem claim_C10_counterexample :
    reduce_cardinality (reduce_cardinality c10batch) ≠ reduce_cardinality c10batch := by
  rw [c10_pass1, c10_pass2]
  decide

end SpecToProof
